import Mathlib

/-!
Verification of the wax compression shim layer
(`Sources/WaxCoreCompressionC/wax_compression_shims.c`).

The shim layer validates pointers and sizes and passes buffers through to
two third-party codec families (an LZ4-style fast codec and a zlib
DEFLATE-style codec).  The third-party codecs themselves are not part of
this repository, so they are embedded as abstract interfaces (`Lz4Lib`,
`ZlibLib`); the shim functions are translated from the C source and are
parameterised by such an interface.  Behavioural contracts of the wrapped
codecs (`Lz4Faithful`, `ZlibFaithful`) are modelled from the specification,
and concrete toy instances (`toyLz4`, `toyZlib`) are provided to show the
contracts are satisfiable and to evaluate the shims on concrete inputs.

Buffers are modelled as `List Nat`; a nullable C pointer is an
`Option`-wrapped value (`none` = `NULL`).  An out-parameter is threaded
explicitly: the function receives the pointee's prior value and returns its
final value.  `size_t` values are `Nat`, C `int`/`int32_t` values are `Int`
(all values involved fit after the explicit range checks, which are kept).
-/

namespace Wax

/-- Maximum of a signed 32-bit integer, `INT32_MAX` in the C source. -/
def INT32_MAX : Nat := 2 ^ 31 - 1

/-- Maximum of an unsigned 32-bit integer, `UINT32_MAX` in the C source. -/
def UINT32_MAX : Nat := 2 ^ 32 - 1

/-- zlib success status `Z_OK`. -/
def Z_OK : Int := 0

/-- zlib default compression level `Z_DEFAULT_COMPRESSION` (value -1). -/
def Z_DEFAULT_COMPRESSION : Int := -1

/-- In-place overwrite of the front of a buffer: the bytes `data` are
written at offset 0 of `buf`, the rest of `buf` is untouched. -/
def writeInto (buf data : List Nat) : List Nat :=
  data ++ buf.drop data.length

/-- Abstract interface of the wrapped fast (LZ4-style) codec.  Each
function receives the source bytes, the source length argument, the prior
contents of the destination buffer and the destination capacity/length
argument, and returns the C return value together with the destination
buffer contents after the call. -/
structure Lz4Lib where
  compressBound : Nat → Int
  compress_default : List Nat → Nat → List Nat → Nat → Int × List Nat
  decompress_safe : List Nat → Nat → List Nat → Nat → Int × List Nat

/-- Abstract interface of the wrapped DEFLATE-style (zlib) codec.
`compress2 dst outLenIn src srcLen level` returns
`(zrc, dstAfter, outLenOut)`; `uncompress dst outLenIn src srcLen`
likewise.  The in/out length is threaded by value. -/
structure ZlibLib where
  compress2 : List Nat → Nat → List Nat → Nat → Int → Int × List Nat × Nat
  uncompress : List Nat → Nat → List Nat → Nat → Int × List Nat × Nat

/-- Embedding of `wax_lz4_compress` from `wax_compression_shims.c`.
Arguments mirror the C signature: `src`/`dst` are nullable buffers,
`out_len` is a nullable out-parameter holding its prior pointee value.
Returns `(return code, dst contents after, *out_len after)`. -/
def wax_lz4_compress (L : Lz4Lib) (src : Option (List Nat)) (src_len : Nat)
    (dst : Option (List Nat)) (dst_cap : Nat) (out_len : Option Nat) :
    Int × Option (List Nat) × Option Nat :=
  match src, dst, out_len with
  | some s, some d, some ol =>
    if src_len > INT32_MAX ∨ dst_cap > INT32_MAX then
      (-2, some d, some ol)
    else if L.compressBound src_len ≤ 0 then
      (-3, some d, some ol)
    else if (L.compressBound src_len).toNat > dst_cap then
      (-4, some d, some ol)
    else if (L.compress_default s src_len d dst_cap).1 ≤ 0 then
      (-5, some (L.compress_default s src_len d dst_cap).2, some ol)
    else
      (0, some (L.compress_default s src_len d dst_cap).2,
        some ((L.compress_default s src_len d dst_cap).1).toNat)
  | _, _, _ => (-1, dst, out_len)

/-- Embedding of `wax_lz4_decompress` from `wax_compression_shims.c`.
Returns `(return code, dst contents after)`. -/
def wax_lz4_decompress (L : Lz4Lib) (src : Option (List Nat)) (src_len : Nat)
    (dst : Option (List Nat)) (dst_len : Nat) :
    Int × Option (List Nat) :=
  match src, dst with
  | some s, some d =>
    if src_len > INT32_MAX ∨ dst_len > INT32_MAX then
      (-2, some d)
    else if (L.decompress_safe s src_len d dst_len).1 < 0 then
      (-3, some (L.decompress_safe s src_len d dst_len).2)
    else if ((L.decompress_safe s src_len d dst_len).1).toNat ≠ dst_len then
      (-4, some (L.decompress_safe s src_len d dst_len).2)
    else
      (0, some (L.decompress_safe s src_len d dst_len).2)
  | _, _ => (-1, dst)

/-- Embedding of `wax_deflate_compress` from `wax_compression_shims.c`.
`inout_dst_len` is the nullable in/out length parameter holding its prior
pointee value.  Returns `(return code, dst contents after,
*inout_dst_len after)`. -/
def wax_deflate_compress (Z : ZlibLib) (src : Option (List Nat))
    (src_len : Nat) (dst : Option (List Nat)) (inout_dst_len : Option Nat) :
    Int × Option (List Nat) × Option Nat :=
  match src, dst, inout_dst_len with
  | some s, some d, some cap =>
    if src_len > UINT32_MAX ∨ cap > UINT32_MAX then
      (-2, some d, some cap)
    else if (Z.compress2 d cap s src_len Z_DEFAULT_COMPRESSION).1 ≠ Z_OK then
      (-3, some (Z.compress2 d cap s src_len Z_DEFAULT_COMPRESSION).2.1, some cap)
    else
      (0, some (Z.compress2 d cap s src_len Z_DEFAULT_COMPRESSION).2.1,
        some (Z.compress2 d cap s src_len Z_DEFAULT_COMPRESSION).2.2)
  | _, _, _ => (-1, dst, inout_dst_len)

/-- Embedding of `wax_deflate_decompress` from `wax_compression_shims.c`. -/
def wax_deflate_decompress (Z : ZlibLib) (src : Option (List Nat))
    (src_len : Nat) (dst : Option (List Nat)) (inout_dst_len : Option Nat) :
    Int × Option (List Nat) × Option Nat :=
  match src, dst, inout_dst_len with
  | some s, some d, some cap =>
    if src_len > UINT32_MAX ∨ cap > UINT32_MAX then
      (-2, some d, some cap)
    else if (Z.uncompress d cap s src_len).1 ≠ Z_OK then
      (-3, some (Z.uncompress d cap s src_len).2.1, some cap)
    else
      (0, some (Z.uncompress d cap s src_len).2.1,
        some (Z.uncompress d cap s src_len).2.2)
  | _, _, _ => (-1, dst, inout_dst_len)

/-- Modelled from the spec: contract of the wrapped fast codec (the LZ4
library is not part of this repository).  The published bound is positive
for in-range lengths, and whenever the destination capacity is at least
the bound, compression succeeds with a positive byte count within
capacity, and decompressing those bytes bounded by the original length
restores the original bytes exactly (round-trip guarantee). -/
def Lz4Faithful (L : Lz4Lib) : Prop :=
  (∀ n : Nat, n ≤ INT32_MAX → 0 < L.compressBound n) ∧
  (∀ s d : List Nat, ∀ cap : Nat,
    s.length ≤ INT32_MAX → (L.compressBound s.length).toNat ≤ cap →
    cap ≤ INT32_MAX →
    0 < (L.compress_default s s.length d cap).1 ∧
    ((L.compress_default s s.length d cap).1).toNat ≤ cap ∧
    (∀ d2 : List Nat,
      L.decompress_safe
        (((L.compress_default s s.length d cap).2).take
          ((L.compress_default s s.length d cap).1).toNat)
        ((L.compress_default s s.length d cap).1).toNat d2 s.length
      = ((s.length : Int), s ++ d2.drop s.length)))

/-- Modelled from the spec: contract of the wrapped DEFLATE-style codec
(the zlib library is not part of this repository), relative to a
caller-chosen sufficient-capacity function `zbound`.  With capacity at
least `zbound`, `compress2` at the default level returns `Z_OK` with a
compressed length within capacity, and `uncompress` on exactly those
compressed bytes, bounded by the original length, restores the original
bytes and reports the original length (round-trip guarantee). -/
def ZlibFaithful (Z : ZlibLib) (zbound : Nat → Nat) : Prop :=
  ∀ s d : List Nat, ∀ cap : Nat,
    s.length ≤ UINT32_MAX → zbound s.length ≤ cap → cap ≤ UINT32_MAX →
    (Z.compress2 d cap s s.length Z_DEFAULT_COMPRESSION).1 = Z_OK ∧
    (Z.compress2 d cap s s.length Z_DEFAULT_COMPRESSION).2.2 ≤ cap ∧
    (∀ d2 : List Nat,
      Z.uncompress d2 s.length
        (((Z.compress2 d cap s s.length Z_DEFAULT_COMPRESSION).2.1).take
          ((Z.compress2 d cap s s.length Z_DEFAULT_COMPRESSION).2.2))
        ((Z.compress2 d cap s s.length Z_DEFAULT_COMPRESSION).2.2)
      = (Z_OK, s ++ d2.drop s.length, s.length))

/-- Toy fast codec: appends a sentinel byte 7 to the source bytes.  Its
bound follows the spec's published formula `n + n/255 + 16`.  It exists to
show the fast-codec contract is satisfiable and to run the shims on
concrete inputs. -/
def toyLz4 : Lz4Lib where
  compressBound n := (n : Int) + (n : Int) / 255 + 16
  compress_default s slen d cap :=
    if slen + 1 ≤ cap then
      (((slen : Int) + 1), writeInto d (s.take slen ++ [7]))
    else (0, d)
  decompress_safe s slen d dlen :=
    let p := s.take slen
    if 1 ≤ slen ∧ p.length = slen ∧ p.getLast? = some 7 ∧ slen - 1 ≤ dlen then
      (((slen : Int) - 1), writeInto d (p.take (slen - 1)))
    else (-1, d)

/-- Toy DEFLATE-style codec: appends a sentinel byte 9.  It exists to show
the DEFLATE-style contract is satisfiable and to run the shims on concrete
inputs. -/
def toyZlib : ZlibLib where
  compress2 d cap s slen _lvl :=
    if slen + 1 ≤ cap then
      (0, writeInto d (s.take slen ++ [9]), slen + 1)
    else (-5, d, cap)
  uncompress d cap s slen :=
    let p := s.take slen
    if 1 ≤ slen ∧ p.length = slen ∧ p.getLast? = some 9 ∧ slen - 1 ≤ cap then
      (0, writeInto d (p.take (slen - 1)), slen - 1)
    else (-3, d, cap)

/-- Sufficient-capacity function for the toy DEFLATE-style codec. -/
def zboundToy (n : Nat) : Nat := n + 1

/-- Degenerate fast codec that always refuses: it reports zero bytes
written on compression and a negative count on decompression.  It is used
to exercise the shims' failure branches on concrete inputs. -/
def failLz4 : Lz4Lib where
  compressBound _ := 16
  compress_default _ _ d _ := (0, d)
  decompress_safe _ _ d _ := (-1, d)

lemma toyLz4_faithful : Lz4Faithful toyLz4 := by
  constructor
  · intro n _
    have h1 : (0 : Int) ≤ (n : Int) / 255 := by positivity
    simp only [toyLz4]
    omega
  · intro s d cap hlen hbound hcap
    have hb : (toyLz4.compressBound s.length).toNat
        = s.length + s.length / 255 + 16 := by
      simp only [toyLz4]
      omega
    have hsc : s.length + 1 ≤ cap := by
      have : (0:Nat) ≤ s.length / 255 := Nat.zero_le _
      omega
    have hcomp : toyLz4.compress_default s s.length d cap
        = (((s.length : Int) + 1), writeInto d (s ++ [7])) := by
      simp only [toyLz4, if_pos hsc, List.take_length]
    refine ⟨by rw [hcomp]; positivity, ?_, ?_⟩
    · rw [hcomp]
      simp only [Int.toNat_ofNat]
      omega
    · intro d2
      rw [hcomp]
      have htn : ((s.length : Int) + 1).toNat = s.length + 1 := by omega
      have hwlen : (s ++ [7]).length = s.length + 1 := by simp
      have htake : (writeInto d (s ++ [7])).take (s.length + 1) = s ++ [7] := by
        simp only [writeInto]
        rw [← hwlen, List.take_left]
      simp only [htn, htake, toyLz4]
      have hcond : 1 ≤ s.length + 1 ∧
          ((s ++ [7]).take (s.length + 1)).length = s.length + 1 ∧
          ((s ++ [7]).take (s.length + 1)).getLast? = some 7 ∧
          s.length + 1 - 1 ≤ s.length := by
        refine ⟨by omega, ?_, ?_, by omega⟩
        · rw [← hwlen, List.take_length, hwlen]
        · rw [← hwlen, List.take_length]
          simp [List.getLast?_append]
      rw [if_pos hcond]
      have hpt : ((s ++ [7]).take (s.length + 1)).take (s.length + 1 - 1) = s := by
        rw [← hwlen, List.take_length, hwlen]
        simp only [Nat.add_sub_cancel]
        exact List.take_left s [7]
      rw [hpt]
      have hi : ((s.length + 1 : Nat) : Int) - 1 = (s.length : Int) := by
        push_cast
        ring
      simp only [writeInto, hi]

lemma toyZlib_faithful : ZlibFaithful toyZlib zboundToy := by
  intro s d cap hlen hbound hcap
  have hsc : s.length + 1 ≤ cap := hbound
  have hcomp : toyZlib.compress2 d cap s s.length Z_DEFAULT_COMPRESSION
      = (0, writeInto d (s ++ [9]), s.length + 1) := by
    simp only [toyZlib, if_pos hsc, List.take_length]
  refine ⟨by rw [hcomp]; rfl, by rw [hcomp]; exact hsc, ?_⟩
  intro d2
  rw [hcomp]
  have hwlen : (s ++ [9]).length = s.length + 1 := by simp
  have htake : (writeInto d (s ++ [9])).take (s.length + 1) = s ++ [9] := by
    simp only [writeInto]
    rw [← hwlen, List.take_left]
  simp only [htake, toyZlib]
  have hcond : 1 ≤ s.length + 1 ∧
      ((s ++ [9]).take (s.length + 1)).length = s.length + 1 ∧
      ((s ++ [9]).take (s.length + 1)).getLast? = some 9 ∧
      s.length + 1 - 1 ≤ s.length := by
    refine ⟨by omega, ?_, ?_, by omega⟩
    · rw [← hwlen, List.take_length, hwlen]
    · rw [← hwlen, List.take_length]
      simp [List.getLast?_append]
  rw [if_pos hcond]
  have hpt : ((s ++ [9]).take (s.length + 1)).take (s.length + 1 - 1) = s := by
    rw [← hwlen, List.take_length, hwlen]
    simp only [Nat.add_sub_cancel]
    exact List.take_left s [9]
  rw [hpt]
  simp only [writeInto, Z_OK, Nat.add_sub_cancel]

lemma lz4_compress_checks_pass (L : Lz4Lib) (s d : List Nat) (slen dcap ol : Nat)
    (h1 : slen ≤ INT32_MAX) (h2 : dcap ≤ INT32_MAX)
    (h3 : 0 < L.compressBound slen) (h4 : (L.compressBound slen).toNat ≤ dcap) :
    wax_lz4_compress L (some s) slen (some d) dcap (some ol) =
      if (L.compress_default s slen d dcap).1 ≤ 0 then
        (-5, some (L.compress_default s slen d dcap).2, some ol)
      else
        (0, some (L.compress_default s slen d dcap).2,
          some ((L.compress_default s slen d dcap).1).toNat) := by
  simp only [wax_lz4_compress]
  rw [if_neg (by omega), if_neg (by omega), if_neg (by omega)]

lemma lz4_decompress_checks_pass (L : Lz4Lib) (s d : List Nat) (slen dlen : Nat)
    (h1 : slen ≤ INT32_MAX) (h2 : dlen ≤ INT32_MAX) :
    wax_lz4_decompress L (some s) slen (some d) dlen =
      if (L.decompress_safe s slen d dlen).1 < 0 then
        (-3, some (L.decompress_safe s slen d dlen).2)
      else if ((L.decompress_safe s slen d dlen).1).toNat ≠ dlen then
        (-4, some (L.decompress_safe s slen d dlen).2)
      else
        (0, some (L.decompress_safe s slen d dlen).2) := by
  simp only [wax_lz4_decompress]
  rw [if_neg (by omega)]

lemma deflate_compress_checks_pass (Z : ZlibLib) (s d : List Nat) (slen cap : Nat)
    (h1 : slen ≤ UINT32_MAX) (h2 : cap ≤ UINT32_MAX) :
    wax_deflate_compress Z (some s) slen (some d) (some cap) =
      if (Z.compress2 d cap s slen Z_DEFAULT_COMPRESSION).1 ≠ Z_OK then
        (-3, some (Z.compress2 d cap s slen Z_DEFAULT_COMPRESSION).2.1, some cap)
      else
        (0, some (Z.compress2 d cap s slen Z_DEFAULT_COMPRESSION).2.1,
          some (Z.compress2 d cap s slen Z_DEFAULT_COMPRESSION).2.2) := by
  simp only [wax_deflate_compress]
  rw [if_neg (by omega)]

lemma deflate_decompress_checks_pass (Z : ZlibLib) (s d : List Nat) (slen cap : Nat)
    (h1 : slen ≤ UINT32_MAX) (h2 : cap ≤ UINT32_MAX) :
    wax_deflate_decompress Z (some s) slen (some d) (some cap) =
      if (Z.uncompress d cap s slen).1 ≠ Z_OK then
        (-3, some (Z.uncompress d cap s slen).2.1, some cap)
      else
        (0, some (Z.uncompress d cap s slen).2.1,
          some (Z.uncompress d cap s slen).2.2) := by
  simp only [wax_deflate_decompress]
  rw [if_neg (by omega)]

lemma lz4_shim_compress_ok (L : Lz4Lib) (hL : Lz4Faithful L) (b d : List Nat)
    (dcap prev : Nat) (h1 : b.length ≤ INT32_MAX) (h2 : dcap ≤ INT32_MAX)
    (h3 : (L.compressBound b.length).toNat ≤ dcap) :
    wax_lz4_compress L (some b) b.length (some d) dcap (some prev) =
      (0, some (L.compress_default b b.length d dcap).2,
        some ((L.compress_default b b.length d dcap).1).toNat) := by
  obtain ⟨hbpos, hc⟩ := hL
  obtain ⟨hw, hwle, -⟩ := hc b d dcap h1 h3 h2
  rw [lz4_compress_checks_pass L b d b.length dcap prev h1 h2 (hbpos _ h1) h3,
    if_neg (by omega)]

lemma lz4_shim_decompress_ok (L : Lz4Lib) (hL : Lz4Faithful L) (b d d2 : List Nat)
    (dcap : Nat) (h1 : b.length ≤ INT32_MAX) (h2 : dcap ≤ INT32_MAX)
    (h3 : (L.compressBound b.length).toNat ≤ dcap) :
    wax_lz4_decompress L
      (some ((L.compress_default b b.length d dcap).2.take
        ((L.compress_default b b.length d dcap).1).toNat))
      ((L.compress_default b b.length d dcap).1).toNat
      (some d2) b.length = (0, some (b ++ d2.drop b.length)) := by
  obtain ⟨hbpos, hc⟩ := hL
  obtain ⟨hw, hwle, hrt⟩ := hc b d dcap h1 h3 h2
  rw [lz4_decompress_checks_pass L _ d2 _ b.length (by omega) h1, hrt d2]
  have hnn : ¬ ((b.length : Int) < 0) := by omega
  have hton : ((b.length : Int)).toNat = b.length := by omega
  rw [if_neg hnn, if_neg (by omega)]

lemma zlib_shim_compress_ok (Z : ZlibLib) (zbound : Nat → Nat)
    (hZ : ZlibFaithful Z zbound) (b d : List Nat) (zcap : Nat)
    (h1 : b.length ≤ UINT32_MAX) (h2 : zbound b.length ≤ zcap)
    (h3 : zcap ≤ UINT32_MAX) :
    wax_deflate_compress Z (some b) b.length (some d) (some zcap) =
      (0, some (Z.compress2 d zcap b b.length Z_DEFAULT_COMPRESSION).2.1,
        some (Z.compress2 d zcap b b.length Z_DEFAULT_COMPRESSION).2.2) := by
  obtain ⟨hok, hle, -⟩ := hZ b d zcap h1 h2 h3
  rw [deflate_compress_checks_pass Z b d b.length zcap h1 h3,
    if_neg (not_not_intro hok)]

lemma zlib_shim_decompress_ok (Z : ZlibLib) (zbound : Nat → Nat)
    (hZ : ZlibFaithful Z zbound) (b d d2 : List Nat) (zcap : Nat)
    (h1 : b.length ≤ UINT32_MAX) (h2 : zbound b.length ≤ zcap)
    (h3 : zcap ≤ UINT32_MAX) :
    wax_deflate_decompress Z
      (some ((Z.compress2 d zcap b b.length Z_DEFAULT_COMPRESSION).2.1.take
        (Z.compress2 d zcap b b.length Z_DEFAULT_COMPRESSION).2.2))
      (Z.compress2 d zcap b b.length Z_DEFAULT_COMPRESSION).2.2
      (some d2) (some b.length)
      = (0, some (b ++ d2.drop b.length), some b.length) := by
  obtain ⟨hok, hle, hrt⟩ := hZ b d zcap h1 h2 h3
  rw [deflate_decompress_checks_pass Z _ d2 _ b.length (by omega) h1, hrt d2]
  rw [if_neg (not_not_intro rfl)]

/-- C2 counterexample: `wax_lz4_compress` with a null `src` pointer and
`src_len = 0` returns `-1` (`InvalidArgument`), refuting the claim that a
null input pointer is accepted when the input length is zero. -/
theorem null_input_zero_len_rejected :
    wax_lz4_compress toyLz4 none 0 (some []) 16 (some 0) = (-1, some [], some 0) := by
  rfl

/-- C2 (amended): each shim returns `InvalidArgument` (-1) exactly when
one of its required pointers (`src`, `dst`, and the length out-parameter
where present) is null, regardless of the length arguments; in particular
a null input pointer is rejected even when the input length is zero. -/
theorem invalid_argument_iff_null (L : Lz4Lib) (Z : ZlibLib)
    (src dst : Option (List Nat)) (slen dcap : Nat)
    (ol : Option Nat) (cap1 cap2 : Option Nat) :
    ((wax_lz4_compress L src slen dst dcap ol).1 = -1 ↔
      (src = none ∨ dst = none ∨ ol = none)) ∧
    ((wax_lz4_decompress L src slen dst dcap).1 = -1 ↔
      (src = none ∨ dst = none)) ∧
    ((wax_deflate_compress Z src slen dst cap1).1 = -1 ↔
      (src = none ∨ dst = none ∨ cap1 = none)) ∧
    ((wax_deflate_decompress Z src slen dst cap2).1 = -1 ↔
      (src = none ∨ dst = none ∨ cap2 = none)) := by
  refine ⟨?_, ?_, ?_, ?_⟩
  · rcases src with _ | s
    · simp [wax_lz4_compress]
    · rcases dst with _ | d
      · simp [wax_lz4_compress]
      · rcases ol with _ | o
        · simp [wax_lz4_compress]
        · simp only [wax_lz4_compress]
          split_ifs <;> norm_num
  · rcases src with _ | s
    · simp [wax_lz4_decompress]
    · rcases dst with _ | d
      · simp [wax_lz4_decompress]
      · simp only [wax_lz4_decompress]
        split_ifs <;> norm_num
  · rcases src with _ | s
    · simp [wax_deflate_compress]
    · rcases dst with _ | d
      · simp [wax_deflate_compress]
      · rcases cap1 with _ | c
        · simp [wax_deflate_compress]
        · simp only [wax_deflate_compress]
          split_ifs <;> norm_num
  · rcases src with _ | s
    · simp [wax_deflate_decompress]
    · rcases dst with _ | d
      · simp [wax_deflate_decompress]
      · rcases cap2 with _ | c
        · simp [wax_deflate_decompress]
        · simp only [wax_deflate_decompress]
          split_ifs <;> norm_num

/-- C3: a length or capacity above `INT32_MAX` makes either fast-codec
shim return `-2` (`SizeLimitExceeded`) with buffers and out-length
untouched, for every underlying codec (so without depending on the
transform); a length or capacity above `UINT32_MAX` does the same for
either DEFLATE-style shim; lengths within the respective range never
produce `-2`. -/
theorem size_limit_enforced (L : Lz4Lib) (Z : ZlibLib) (s d : List Nat)
    (slen dcap ol cap : Nat) :
    ((slen > INT32_MAX ∨ dcap > INT32_MAX) →
      wax_lz4_compress L (some s) slen (some d) dcap (some ol)
        = (-2, some d, some ol)) ∧
    (slen ≤ INT32_MAX → dcap ≤ INT32_MAX →
      (wax_lz4_compress L (some s) slen (some d) dcap (some ol)).1 ≠ -2) ∧
    ((slen > INT32_MAX ∨ dcap > INT32_MAX) →
      wax_lz4_decompress L (some s) slen (some d) dcap = (-2, some d)) ∧
    (slen ≤ INT32_MAX → dcap ≤ INT32_MAX →
      (wax_lz4_decompress L (some s) slen (some d) dcap).1 ≠ -2) ∧
    ((slen > UINT32_MAX ∨ cap > UINT32_MAX) →
      wax_deflate_compress Z (some s) slen (some d) (some cap)
        = (-2, some d, some cap)) ∧
    (slen ≤ UINT32_MAX → cap ≤ UINT32_MAX →
      (wax_deflate_compress Z (some s) slen (some d) (some cap)).1 ≠ -2) ∧
    ((slen > UINT32_MAX ∨ cap > UINT32_MAX) →
      wax_deflate_decompress Z (some s) slen (some d) (some cap)
        = (-2, some d, some cap)) ∧
    (slen ≤ UINT32_MAX → cap ≤ UINT32_MAX →
      (wax_deflate_decompress Z (some s) slen (some d) (some cap)).1 ≠ -2) := by
  refine ⟨?_, ?_, ?_, ?_, ?_, ?_, ?_, ?_⟩
  · intro h
    simp only [wax_lz4_compress]
    rw [if_pos h]
  · intro h1 h2
    simp only [wax_lz4_compress]
    rw [if_neg (by omega)]
    split_ifs <;> norm_num
  · intro h
    simp only [wax_lz4_decompress]
    rw [if_pos h]
  · intro h1 h2
    simp only [wax_lz4_decompress]
    rw [if_neg (by omega)]
    split_ifs <;> norm_num
  · intro h
    simp only [wax_deflate_compress]
    rw [if_pos h]
  · intro h1 h2
    simp only [wax_deflate_compress]
    rw [if_neg (by omega)]
    split_ifs <;> norm_num
  · intro h
    simp only [wax_deflate_decompress]
    rw [if_pos h]
  · intro h1 h2
    simp only [wax_deflate_decompress]
    rw [if_neg (by omega)]
    split_ifs <;> norm_num

/-- C3 witness: a source length of `2 ^ 31` (one above the signed 32-bit
maximum) makes the fast-codec compressor fail with `-2`, and a source
length of `2 ^ 32` (one above the unsigned 32-bit maximum) makes the
DEFLATE-style compressor fail with `-2`; an in-range call returns a code
other than `-2`. -/
theorem size_limit_enforced_witness :
    wax_lz4_compress toyLz4 (some []) (2 ^ 31) (some []) 0 (some 5)
      = (-2, some [], some 5) ∧
    wax_deflate_compress toyZlib (some []) (2 ^ 32) (some []) (some 5)
      = (-2, some [], some 5) ∧
    (wax_lz4_compress toyLz4 (some []) 0 (some []) 16 (some 5)).1 ≠ -2 :=
  ⟨(size_limit_enforced toyLz4 toyZlib [] [] (2 ^ 31) 0 5 5).1
      (Or.inl (by decide)),
    (size_limit_enforced toyLz4 toyZlib [] [] (2 ^ 32) 0 5 5).2.2.2.2.1
      (Or.inl (by decide)),
    (size_limit_enforced toyLz4 toyZlib [] [] 0 16 5 5).2.1
      (by decide) (by decide)⟩

/-- C4: whenever the fast-codec pre-checks pass but the declared output
capacity is strictly below the computed worst-case bound, the compressor
returns `-4` (`OutputTooSmall`) with the destination buffer and the
out-length untouched, for every underlying codec (the transform is not
reached). -/
theorem output_too_small_rejects (L : Lz4Lib) (s d : List Nat)
    (slen dcap ol : Nat) (h1 : slen ≤ INT32_MAX) (h2 : dcap ≤ INT32_MAX)
    (h3 : 0 < L.compressBound slen)
    (h4 : dcap < (L.compressBound slen).toNat) :
    wax_lz4_compress L (some s) slen (some d) dcap (some ol)
      = (-4, some d, some ol) := by
  simp only [wax_lz4_compress]
  rw [if_neg (by omega), if_neg (by omega), if_pos (by omega)]

/-- C4 witness: for a zero-length input the toy bound is 16, and a
capacity of 15 (one byte below the bound) is rejected with `-4`. -/
theorem output_too_small_rejects_witness :
    wax_lz4_compress toyLz4 (some []) 0 (some []) 15 (some 0)
      = (-4, some [], some 0) :=
  output_too_small_rejects toyLz4 [] [] 0 15 0 (by decide) (by decide)
    (by decide) (by decide)

/-- C5: after the fast-decompress pre-checks pass, a negative count from
the transform yields `-3` (`DecompressionFailed`); a non-negative count
different from `expectedOutputLength` yields `-4` (`LengthMismatch`); and
the call returns success (0) exactly when the transform's reported count
is non-negative and equal to `expectedOutputLength` — it never succeeds
with a shorter output, so it never silently truncates. -/
theorem fast_decompress_taxonomy (L : Lz4Lib) (s d : List Nat)
    (slen dlen : Nat) (h1 : slen ≤ INT32_MAX) (h2 : dlen ≤ INT32_MAX) :
    ((L.decompress_safe s slen d dlen).1 < 0 →
      wax_lz4_decompress L (some s) slen (some d) dlen
        = (-3, some (L.decompress_safe s slen d dlen).2)) ∧
    (0 ≤ (L.decompress_safe s slen d dlen).1 →
      ((L.decompress_safe s slen d dlen).1).toNat ≠ dlen →
      wax_lz4_decompress L (some s) slen (some d) dlen
        = (-4, some (L.decompress_safe s slen d dlen).2)) ∧
    ((wax_lz4_decompress L (some s) slen (some d) dlen).1 = 0 ↔
      (0 ≤ (L.decompress_safe s slen d dlen).1 ∧
        ((L.decompress_safe s slen d dlen).1).toNat = dlen)) := by
  rw [lz4_decompress_checks_pass L s d slen dlen h1 h2]
  refine ⟨?_, ?_, ?_⟩
  · intro h
    rw [if_pos h]
  · intro h h'
    rw [if_neg (by omega), if_pos h']
  · split_ifs with ha hb
    · exact iff_of_false (by norm_num) (by omega)
    · exact iff_of_false (by norm_num) (by omega)
    · exact iff_of_true rfl ⟨by omega, by omega⟩

/-- C5 witness: on an input the toy codec rejects (negative count), the
shim returns `-3`; on a well-formed input whose reported count (0)
differs from the expected length (5), it returns `-4`; and a call whose
reported count equals the expected length returns 0. -/
theorem fast_decompress_taxonomy_witness :
    wax_lz4_decompress toyLz4 (some []) 0 (some []) 0 = (-3, some []) ∧
    wax_lz4_decompress toyLz4 (some [7]) 1 (some []) 5 = (-4, some []) ∧
    (wax_lz4_decompress toyLz4 (some [7]) 1 (some []) 0).1 = 0 :=
  ⟨(fast_decompress_taxonomy toyLz4 [] [] 0 0 (by decide) (by decide)).1
      (by decide),
    (fast_decompress_taxonomy toyLz4 [7] [] 1 5 (by decide) (by decide)).2.1
      (by decide) (by decide),
    (fast_decompress_taxonomy toyLz4 [7] [] 1 0 (by decide) (by decide)).2.2.mpr
      (by decide)⟩

/-- C6: after the fast-compress pre-checks pass, a zero or negative count
from the transform yields `-5` (`CompressionFailed`) with the out-length
untouched; a positive count yields success (0) with the out-length set to
exactly the transform's reported count. -/
theorem fast_compress_outcome (L : Lz4Lib) (s d : List Nat)
    (slen dcap ol : Nat) (h1 : slen ≤ INT32_MAX) (h2 : dcap ≤ INT32_MAX)
    (h3 : 0 < L.compressBound slen)
    (h4 : (L.compressBound slen).toNat ≤ dcap) :
    ((L.compress_default s slen d dcap).1 ≤ 0 →
      wax_lz4_compress L (some s) slen (some d) dcap (some ol)
        = (-5, some (L.compress_default s slen d dcap).2, some ol)) ∧
    (0 < (L.compress_default s slen d dcap).1 →
      wax_lz4_compress L (some s) slen (some d) dcap (some ol)
        = (0, some (L.compress_default s slen d dcap).2,
            some ((L.compress_default s slen d dcap).1).toNat)) := by
  rw [lz4_compress_checks_pass L s d slen dcap ol h1 h2 h3 h4]
  constructor
  · intro h
    rw [if_pos h]
  · intro h
    rw [if_neg (by omega)]

/-- C6 witness: compressing an empty input with capacity 16 succeeds with
the toy codec's reported count 1 stored in the out-length; a codec that
reports zero bytes written makes the shim return `-5` with the out-length
untouched. -/
theorem fast_compress_outcome_witness :
    wax_lz4_compress toyLz4 (some []) 0 (some []) 16 (some 99)
      = (0, some [7], some 1) ∧
    wax_lz4_compress failLz4 (some []) 0 (some []) 16 (some 99)
      = (-5, some [], some 99) :=
  ⟨(fast_compress_outcome toyLz4 [] [] 0 16 99 (by decide) (by decide)
      (by decide) (by decide)).2 (by decide),
    (fast_compress_outcome failLz4 [] [] 0 16 99 (by decide) (by decide)
      (by decide) (by decide)).1 (by decide)⟩

/-- C7: the DEFLATE-style compressor's behaviour depends only on the
underlying transform at the single fixed default level (no level is
exposed: two libraries agreeing at the default level are
indistinguishable through the shim); the in/out parameter is read as the
declared capacity and, on success, overwritten with the exact compressed
length, verified by independently re-decompressing exactly that many
bytes back to the original input. -/
theorem deflate_compress_contract (Z1 Z2 : ZlibLib)
    (hagree : ∀ (d : List Nat) (c : Nat) (s : List Nat) (n : Nat),
      Z1.compress2 d c s n Z_DEFAULT_COMPRESSION
        = Z2.compress2 d c s n Z_DEFAULT_COMPRESSION)
    (zbound : Nat → Nat) (hZ : ZlibFaithful Z1 zbound)
    (s d d2 : List Nat) (capv : Nat)
    (h1 : s.length ≤ UINT32_MAX) (h2 : zbound s.length ≤ capv)
    (h3 : capv ≤ UINT32_MAX) :
    (∀ (src dst : Option (List Nat)) (slen : Nat) (cap : Option Nat),
      wax_deflate_compress Z1 src slen dst cap
        = wax_deflate_compress Z2 src slen dst cap) ∧
    wax_deflate_compress Z1 (some s) s.length (some d) (some capv)
      = (0, some (Z1.compress2 d capv s s.length Z_DEFAULT_COMPRESSION).2.1,
          some (Z1.compress2 d capv s s.length Z_DEFAULT_COMPRESSION).2.2) ∧
    Z1.uncompress d2 s.length
      ((Z1.compress2 d capv s s.length Z_DEFAULT_COMPRESSION).2.1.take
        (Z1.compress2 d capv s s.length Z_DEFAULT_COMPRESSION).2.2)
      (Z1.compress2 d capv s s.length Z_DEFAULT_COMPRESSION).2.2
      = (Z_OK, s ++ d2.drop s.length, s.length) := by
  refine ⟨?_, ?_, ?_⟩
  · intro src dst slen cap
    rcases src with _ | s'
    · rfl
    rcases dst with _ | d'
    · rfl
    rcases cap with _ | c'
    · rfl
    simp only [wax_deflate_compress, hagree]
  · exact zlib_shim_compress_ok Z1 zbound hZ s d capv h1 h2 h3
  · exact (hZ s d capv h1 h2 h3).2.2 d2

/-- C7 witness: compressing `[5]` with declared capacity 2 overwrites the
in/out parameter with the compressed length 2, and re-decompressing
exactly those 2 bytes restores `[5]`. -/
theorem deflate_compress_contract_witness :
    wax_deflate_compress toyZlib (some [5]) 1 (some []) (some 2)
      = (0, some [5, 9], some 2) ∧
    toyZlib.uncompress [] 1 [5, 9] 2 = (0, [5], 1) :=
  ⟨(deflate_compress_contract toyZlib toyZlib (fun _ _ _ _ => rfl)
      zboundToy toyZlib_faithful [5] [] [] 2 (by decide) (by decide)
      (by decide)).2.1,
    (deflate_compress_contract toyZlib toyZlib (fun _ _ _ _ => rfl)
      zboundToy toyZlib_faithful [5] [] [] 2 (by decide) (by decide)
      (by decide)).2.2⟩

/-- C8: after the DEFLATE-style pre-checks pass, every non-`Z_OK` status
from the underlying library makes the compressor return the single code
`-3` (`CompressionFailed`) and the decompressor the single code `-3`
(`DecompressionFailed`), with the in/out length untouched and no
sub-classification; each call returns success (0) exactly when the
library reports `Z_OK`. -/
theorem deflate_error_collapse (Z : ZlibLib) (s d : List Nat)
    (slen cap : Nat) (h1 : slen ≤ UINT32_MAX) (h2 : cap ≤ UINT32_MAX) :
    ((Z.compress2 d cap s slen Z_DEFAULT_COMPRESSION).1 ≠ Z_OK →
      wax_deflate_compress Z (some s) slen (some d) (some cap)
        = (-3, some (Z.compress2 d cap s slen Z_DEFAULT_COMPRESSION).2.1,
            some cap)) ∧
    ((wax_deflate_compress Z (some s) slen (some d) (some cap)).1 = 0 ↔
      (Z.compress2 d cap s slen Z_DEFAULT_COMPRESSION).1 = Z_OK) ∧
    ((Z.uncompress d cap s slen).1 ≠ Z_OK →
      wax_deflate_decompress Z (some s) slen (some d) (some cap)
        = (-3, some (Z.uncompress d cap s slen).2.1, some cap)) ∧
    ((wax_deflate_decompress Z (some s) slen (some d) (some cap)).1 = 0 ↔
      (Z.uncompress d cap s slen).1 = Z_OK) := by
  rw [deflate_compress_checks_pass Z s d slen cap h1 h2,
    deflate_decompress_checks_pass Z s d slen cap h1 h2]
  refine ⟨?_, ?_, ?_, ?_⟩
  · intro h
    rw [if_pos h]
  · split_ifs with h
    · exact iff_of_false (by norm_num) h
    · exact iff_of_true rfl (not_not.mp h)
  · intro h
    rw [if_pos h]
  · split_ifs with h
    · exact iff_of_false (by norm_num) h
    · exact iff_of_true rfl (not_not.mp h)

/-- C8 witness: the toy library's buffer-too-small status (-5) from
`compress2` and its corrupt-stream status (-3) from `uncompress` both
collapse to the shim code `-3`, with the in/out length untouched. -/
theorem deflate_error_collapse_witness :
    wax_deflate_compress toyZlib (some []) 0 (some []) (some 0)
      = (-3, some [], some 0) ∧
    wax_deflate_decompress toyZlib (some []) 0 (some []) (some 0)
      = (-3, some [], some 0) :=
  ⟨(deflate_error_collapse toyZlib [] [] 0 0 (by decide) (by decide)).1
      (by decide),
    (deflate_error_collapse toyZlib [] [] 0 0 (by decide) (by decide)).2.2.1
      (by decide)⟩

/-- C1: round-trip integrity.  For every byte sequence `b` and every pair
of underlying codecs meeting their modelled contracts, with correctly
sized output buffers both compressors succeed with the exact compressed
length in the out-parameter, and decompressing the compressed bytes (with
`expectedOutputLength` equal to the length of `b` for the fast codec, and
declared capacity equal to the length of `b` for the DEFLATE-style codec)
succeeds and writes `b` back into the destination buffer. -/
theorem wax_round_trip (L : Lz4Lib) (Z : ZlibLib) (zbound : Nat → Nat)
    (hL : Lz4Faithful L) (hZ : ZlibFaithful Z zbound)
    (b d d2 dz dz2 : List Nat) (dcap zcap prev : Nat)
    (h1 : b.length ≤ INT32_MAX) (h2 : dcap ≤ INT32_MAX)
    (h3 : (L.compressBound b.length).toNat ≤ dcap)
    (h4 : b.length ≤ UINT32_MAX) (h5 : zbound b.length ≤ zcap)
    (h6 : zcap ≤ UINT32_MAX) :
    wax_lz4_compress L (some b) b.length (some d) dcap (some prev)
      = (0, some (L.compress_default b b.length d dcap).2,
          some ((L.compress_default b b.length d dcap).1).toNat) ∧
    wax_lz4_decompress L
      (some ((L.compress_default b b.length d dcap).2.take
        ((L.compress_default b b.length d dcap).1).toNat))
      ((L.compress_default b b.length d dcap).1).toNat
      (some d2) b.length = (0, some (b ++ d2.drop b.length)) ∧
    wax_deflate_compress Z (some b) b.length (some dz) (some zcap)
      = (0, some (Z.compress2 dz zcap b b.length Z_DEFAULT_COMPRESSION).2.1,
          some (Z.compress2 dz zcap b b.length Z_DEFAULT_COMPRESSION).2.2) ∧
    wax_deflate_decompress Z
      (some ((Z.compress2 dz zcap b b.length Z_DEFAULT_COMPRESSION).2.1.take
        (Z.compress2 dz zcap b b.length Z_DEFAULT_COMPRESSION).2.2))
      (Z.compress2 dz zcap b b.length Z_DEFAULT_COMPRESSION).2.2
      (some dz2) (some b.length)
      = (0, some (b ++ dz2.drop b.length), some b.length) :=
  ⟨lz4_shim_compress_ok L hL b d dcap prev h1 h2 h3,
    lz4_shim_decompress_ok L hL b d d2 dcap h1 h2 h3,
    zlib_shim_compress_ok Z zbound hZ b dz zcap h4 h5 h6,
    zlib_shim_decompress_ok Z zbound hZ b dz dz2 zcap h4 h5 h6⟩

/-- C1 witness: the byte sequence `[3, 1, 4]` round-trips through both
shim pairs with the toy codecs: fast compression yields `[3, 1, 4, 7]`
with reported length 4 and decompression restores `[3, 1, 4]`; the
DEFLATE-style pair behaves likewise via `[3, 1, 4, 9]`. -/
theorem wax_round_trip_witness :
    wax_lz4_compress toyLz4 (some [3, 1, 4]) 3 (some []) 20 (some 0)
      = (0, some [3, 1, 4, 7], some 4) ∧
    wax_lz4_decompress toyLz4 (some [3, 1, 4, 7]) 4 (some []) 3
      = (0, some [3, 1, 4]) ∧
    wax_deflate_compress toyZlib (some [3, 1, 4]) 3 (some []) (some 4)
      = (0, some [3, 1, 4, 9], some 4) ∧
    wax_deflate_decompress toyZlib (some [3, 1, 4, 9]) 4 (some []) (some 3)
      = (0, some [3, 1, 4], some 3) := by
  have H := wax_round_trip toyLz4 toyZlib zboundToy toyLz4_faithful
    toyZlib_faithful [3, 1, 4] [] [] [] [] 20 4 0 (by decide) (by decide)
    (by decide) (by decide) (by decide) (by decide)
  exact ⟨H.1, H.2.1, H.2.2.1, H.2.2.2⟩

/-- C9: compressing a zero-length input succeeds under both codec
families given sufficient output capacity, and decompressing the
resulting compressed bytes with `expectedOutputLength = 0` (fast codec)
or declared capacity 0 (DEFLATE-style codec) succeeds and yields zero
bytes (the destination buffer is unchanged and the reported length is
zero). -/
theorem empty_input_ok (L : Lz4Lib) (Z : ZlibLib) (zbound : Nat → Nat)
    (hL : Lz4Faithful L) (hZ : ZlibFaithful Z zbound)
    (d d2 dz dz2 : List Nat) (dcap zcap prev : Nat)
    (h2 : dcap ≤ INT32_MAX) (h3 : (L.compressBound 0).toNat ≤ dcap)
    (h5 : zbound 0 ≤ zcap) (h6 : zcap ≤ UINT32_MAX) :
    wax_lz4_compress L (some []) 0 (some d) dcap (some prev)
      = (0, some (L.compress_default [] 0 d dcap).2,
          some ((L.compress_default [] 0 d dcap).1).toNat) ∧
    wax_lz4_decompress L
      (some ((L.compress_default [] 0 d dcap).2.take
        ((L.compress_default [] 0 d dcap).1).toNat))
      ((L.compress_default [] 0 d dcap).1).toNat
      (some d2) 0 = (0, some d2) ∧
    wax_deflate_compress Z (some []) 0 (some dz) (some zcap)
      = (0, some (Z.compress2 dz zcap [] 0 Z_DEFAULT_COMPRESSION).2.1,
          some (Z.compress2 dz zcap [] 0 Z_DEFAULT_COMPRESSION).2.2) ∧
    wax_deflate_decompress Z
      (some ((Z.compress2 dz zcap [] 0 Z_DEFAULT_COMPRESSION).2.1.take
        (Z.compress2 dz zcap [] 0 Z_DEFAULT_COMPRESSION).2.2))
      (Z.compress2 dz zcap [] 0 Z_DEFAULT_COMPRESSION).2.2
      (some dz2) (some 0) = (0, some dz2, some 0) := by
  have h1 : ([] : List Nat).length ≤ INT32_MAX := Nat.zero_le _
  have h4 : ([] : List Nat).length ≤ UINT32_MAX := Nat.zero_le _
  refine ⟨?_, ?_, ?_, ?_⟩
  · exact lz4_shim_compress_ok L hL [] d dcap prev h1 h2 h3
  · have := lz4_shim_decompress_ok L hL [] d d2 dcap h1 h2 h3
    simpa using this
  · exact zlib_shim_compress_ok Z zbound hZ [] dz zcap h4 h5 h6
  · have := zlib_shim_decompress_ok Z zbound hZ [] dz dz2 zcap h4 h5 h6
    simpa using this

/-- C9 witness: with the toy codecs, compressing the empty sequence
succeeds (fast: one byte `[7]` with reported length 1; DEFLATE-style: one
byte `[9]` with reported length 1), and decompressing those bytes with
expected length 0 / declared capacity 0 succeeds and yields zero bytes. -/
theorem empty_input_ok_witness :
    wax_lz4_compress toyLz4 (some []) 0 (some []) 16 (some 0)
      = (0, some [7], some 1) ∧
    wax_lz4_decompress toyLz4 (some [7]) 1 (some []) 0 = (0, some []) ∧
    wax_deflate_compress toyZlib (some []) 0 (some []) (some 1)
      = (0, some [9], some 1) ∧
    wax_deflate_decompress toyZlib (some [9]) 1 (some []) (some 0)
      = (0, some [], some 0) := by
  have H := empty_input_ok toyLz4 toyZlib zboundToy toyLz4_faithful
    toyZlib_faithful [] [] [] [] 16 1 0 (by decide) (by decide) (by decide)
    (by decide)
  exact ⟨H.1, H.2.1, H.2.2.1, H.2.2.2⟩

/-- C10: error atomicity of the length out-parameters.  Whenever a shim
that takes an out or in/out length pointer returns a nonzero code, the
pointed-to length value is returned exactly as supplied by the caller (it
is written only on the success path), for arbitrary pointer arguments and
arbitrary underlying codecs. -/
theorem error_leaves_len_untouched (L : Lz4Lib) (Z : ZlibLib)
    (src dst : Option (List Nat)) (slen dcap : Nat)
    (ol cap1 cap2 : Option Nat) :
    ((wax_lz4_compress L src slen dst dcap ol).1 ≠ 0 →
      (wax_lz4_compress L src slen dst dcap ol).2.2 = ol) ∧
    ((wax_deflate_compress Z src slen dst cap1).1 ≠ 0 →
      (wax_deflate_compress Z src slen dst cap1).2.2 = cap1) ∧
    ((wax_deflate_decompress Z src slen dst cap2).1 ≠ 0 →
      (wax_deflate_decompress Z src slen dst cap2).2.2 = cap2) := by
  refine ⟨?_, ?_, ?_⟩
  · rcases src with _ | s
    · intro _
      rfl
    rcases dst with _ | d
    · intro _
      rfl
    rcases ol with _ | o
    · intro _
      rfl
    simp only [wax_lz4_compress]
    split_ifs <;> intro h <;> first | rfl | exact absurd rfl h
  · rcases src with _ | s
    · intro _
      rfl
    rcases dst with _ | d
    · intro _
      rfl
    rcases cap1 with _ | c
    · intro _
      rfl
    simp only [wax_deflate_compress]
    split_ifs <;> intro h <;> first | rfl | exact absurd rfl h
  · rcases src with _ | s
    · intro _
      rfl
    rcases dst with _ | d
    · intro _
      rfl
    rcases cap2 with _ | c
    · intro _
      rfl
    simp only [wax_deflate_decompress]
    split_ifs <;> intro h <;> first | rfl | exact absurd rfl h

/-- C10 witness: failing calls (here with null buffer pointers, return
code -1) leave the supplied out-length values 42, 43 and 44 unchanged. -/
theorem error_leaves_len_untouched_witness :
    (wax_lz4_compress toyLz4 none 0 none 0 (some 42)).2.2 = some 42 ∧
    (wax_deflate_compress toyZlib none 0 none (some 43)).2.2 = some 43 ∧
    (wax_deflate_decompress toyZlib none 0 none (some 44)).2.2 = some 44 :=
  ⟨(error_leaves_len_untouched toyLz4 toyZlib none none 0 0 (some 42)
      (some 43) (some 44)).1 (by decide),
    (error_leaves_len_untouched toyLz4 toyZlib none none 0 0 (some 42)
      (some 43) (some 44)).2.1 (by decide),
    (error_leaves_len_untouched toyLz4 toyZlib none none 0 0 (some 42)
      (some 43) (some 44)).2.2 (by decide)⟩

end Wax
